import Mathlib

/-!
Shallow embedding of the cloud-cost backend (src/main.py): the in-process
dataset store, the WebSocket connection manager, and the HTTP endpoints.
Numbers that Python holds as int/float are modelled as ℚ; a WebSocket channel
is identified by a natural number; exceptions are modelled explicitly.
-/

namespace CloudCostBackend

/-- Pydantic model CloudCost (src/main.py lines 23-25): one month/cost record.
The stored dicts produced by cost.dict() have the same two fields. -/
structure CloudCost where
  month : String
  cost : ℚ
deriving DecidableEq

/-- Pydantic model ServiceUsage (src/main.py lines 27-29): parallel label and
data lists. The daily_costs global dict has the same shape and reuses this
structure. No relation between the two list lengths is enforced anywhere. -/
structure ServiceUsage where
  labels : List String
  data : List ℚ
deriving DecidableEq

/-- Pydantic model Resource (src/main.py lines 31-34). -/
structure Resource where
  name : String
  type : String
  cost : ℚ
deriving DecidableEq

/-- Pydantic model CostEstimationParams (src/main.py lines 36-40). -/
structure CostEstimationParams where
  instanceCount : ℤ
  hoursPerDay : ℤ
  daysPerMonth : ℤ
  costPerHour : ℚ
deriving DecidableEq

/-- A WebSocket channel, identified by an opaque id. -/
abbrev WebSocket := ℕ

/-- The payload of a broadcast message: the "data" field of the dict passed to
manager.broadcast, which is either the cloud_costs list or the service_usage
dict (src/main.py lines 130 and 137). -/
inductive Payload where
  | cloudCosts (cs : List CloudCost)
  | serviceUsage (u : ServiceUsage)
deriving DecidableEq

/-- The {type, data} dict passed to manager.broadcast. -/
structure Message where
  type : String
  data : Payload
deriving DecidableEq

/-- ConnectionManager (src/main.py lines 70-83): its one field is the Python
list self.active_connections, which keeps insertion order and admits
duplicates. -/
structure ConnectionManager where
  active_connections : List WebSocket
deriving DecidableEq

/-- ConnectionManager.connect (lines 74-76): after accepting the handshake,
appends the websocket to active_connections (Python list.append). -/
def ConnectionManager.connect (m : ConnectionManager) (ws : WebSocket) :
    ConnectionManager :=
  ⟨m.active_connections ++ [ws]⟩

/-- ConnectionManager.disconnect (lines 78-79): Python
self.active_connections.remove(websocket). list.remove deletes the first
occurrence of the element; if the element is absent it raises ValueError and
leaves the list unchanged. Result: the registry after the call, paired with
some () when ValueError was raised. -/
def ConnectionManager.disconnect (m : ConnectionManager) (ws : WebSocket) :
    ConnectionManager × Option Unit :=
  if ws ∈ m.active_connections then (⟨m.active_connections.erase ws⟩, none)
  else (m, some ())

/-- The loop body of ConnectionManager.broadcast (lines 81-83): iterate the
channel list in order and await connection.send_json(message) on each. fails
says which channels' sends raise. There is no try/except in the loop, so the
first raising send aborts the iteration and the exception escapes broadcast.
Returns the channels that were sent the message (in order) and whether an
exception escaped. -/
def broadcastRun (fails : WebSocket → Bool) : List WebSocket → List WebSocket × Bool
  | [] => ([], false)
  | c :: cs =>
    if fails c then ([], true)
    else
      let r := broadcastRun fails cs
      (c :: r.1, r.2)

set_option linter.unusedVariables false in
/-- ConnectionManager.broadcast (lines 81-83), applied to the manager's current
active_connections. The message content plays no role in the control flow. -/
def ConnectionManager.broadcast (m : ConnectionManager) (message : Message)
    (fails : WebSocket → Bool) : List WebSocket × Bool :=
  broadcastRun fails m.active_connections

/-- The module-level mutable state of src/main.py: the four dataset globals
(lines 43-67) plus the ConnectionManager instance `manager` (line 85). -/
structure AppState where
  cloud_costs : List CloudCost
  service_usage : ServiceUsage
  daily_costs : ServiceUsage
  resources : List Resource
  manager : ConnectionManager
deriving DecidableEq

/-- Initial value of the cloud_costs global (src/main.py lines 43-51). -/
def init_cloud_costs : List CloudCost :=
  [⟨"January", 65⟩, ⟨"February", 59⟩, ⟨"March", 80⟩, ⟨"April", 81⟩,
   ⟨"May", 56⟩, ⟨"June", 55⟩, ⟨"July", 40⟩]

/-- Initial value of the service_usage global (lines 53-56). -/
def init_service_usage : ServiceUsage :=
  ⟨["Compute", "Storage", "Networking", "Database", "Analytics"],
   [100, 150, 100, 200, 250]⟩

/-- Initial value of the daily_costs global (lines 58-61). -/
def init_daily_costs : ServiceUsage :=
  ⟨["Mon", "Tue", "Wed", "Thu", "Fri", "Sat", "Sun"],
   [120, 190, 30, 50, 20, 30, 150]⟩

/-- Initial value of the resources global (lines 63-67). -/
def init_resources : List Resource :=
  [⟨"Web Server", "EC2", 100⟩, ⟨"Database", "RDS", 200⟩, ⟨"Storage", "S3", 50⟩]

/-- The process state right after startup: sample data, empty registry. -/
def initialState : AppState :=
  ⟨init_cloud_costs, init_service_usage, init_daily_costs, init_resources, ⟨[]⟩⟩

/-- GET /cloud-costs (lines 98-100): returns the cloud_costs global verbatim. -/
def get_cloud_costs (s : AppState) : List CloudCost :=
  s.cloud_costs

/-- GET /service-usage (lines 102-104). -/
def get_service_usage (s : AppState) : ServiceUsage :=
  s.service_usage

/-- POST /estimate-cost (lines 114-117): monthly_cost = instanceCount *
hoursPerDay * daysPerMonth * costPerHour (three exact int products, then one
product with the float; all exact in ℚ), returned as the estimatedMonthlyCost
field. The state is neither read nor written. -/
def estimate_cost (s : AppState) (params : CostEstimationParams) : AppState × ℚ :=
  (s, ((params.instanceCount * params.hoursPerDay * params.daysPerMonth : ℤ) : ℚ)
        * params.costPerHour)

/-- A datetime produced by datetime.strptime, with the time-of-day fields all
zero (true for both "%Y-%m-%d" and "%B" parses in this program), so Python's
datetime comparison is lexicographic on (year, month, day). -/
structure PyDate where
  year : ℕ
  month : ℕ
  day : ℕ
deriving DecidableEq

/-- Python datetime <= for dates with zero time fields: lexicographic on
(year, month, day). -/
def PyDate.leb (a b : PyDate) : Bool :=
  decide (a.year < b.year) ||
    (decide (a.year = b.year) &&
      (decide (a.month < b.month) ||
        (decide (a.month = b.month) && decide (a.day ≤ b.day))))

/-- datetime.strptime(name, "%B"): the month number of a full English month
name as stored in the dataset; any other string raises ValueError (none).
A successful parse yields datetime(1900, monthNumber, 1), year and day being
strptime defaults. -/
def monthNumber : String → Option ℕ
  | "January" => some 1
  | "February" => some 2
  | "March" => some 3
  | "April" => some 4
  | "May" => some 5
  | "June" => some 6
  | "July" => some 7
  | "August" => some 8
  | "September" => some 9
  | "October" => some 10
  | "November" => some 11
  | "December" => some 12
  | _ => none

/-- The datetime a record's month field parses to: datetime(1900, m, 1),
using 0 as a dummy month for the raising case (callers check monthNumber
first). -/
def monthDate (name : String) : PyDate :=
  ⟨1900, (monthNumber name).getD 0, 1⟩

/-- The list comprehension of GET /filtered-costs (line 123): keep the records
with start <= strptime(month, "%B") <= end, comparing full datetimes. An
unparseable month raises ValueError out of the comprehension, so no list is
produced (none). -/
def filterCosts (start e : PyDate) : List CloudCost → Option (List CloudCost)
  | [] => some []
  | c :: cs =>
    match monthNumber c.month with
    | none => none
    | some m =>
      match filterCosts start e cs with
      | none => none
      | some rest =>
        if (PyDate.leb start ⟨1900, m, 1⟩ && PyDate.leb ⟨1900, m, 1⟩ e) then
          some (c :: rest)
        else some rest

/-- GET /filtered-costs (lines 119-124), with the two boundary strings already
parsed by strptime("%Y-%m-%d") into dates. Returns the filtered list, or none
when a stored month fails to parse. -/
def get_filtered_costs (s : AppState) (start e : PyDate) : Option (List CloudCost) :=
  filterCosts start e s.cloud_costs

/-- One observable step of a write endpoint, in program order. -/
inductive Event where
  | storeReplace (dataset : String) (data : Payload)
  | broadcastMsg (msg : Message)
deriving DecidableEq

/-- PUT /update-cloud-costs (lines 126-131): rebinds the cloud_costs global to
the payload's dicts, then broadcasts {type: "cloud_costs", data: cloud_costs}
(reading the freshly assigned global), then returns the success message. The
event list records the two effects in program order. -/
def update_cloud_costs (s : AppState) (updated_costs : List CloudCost) :
    AppState × List Event × String :=
  let s2 := { s with cloud_costs := updated_costs }
  (s2,
   [Event.storeReplace "cloud_costs" (Payload.cloudCosts s2.cloud_costs),
    Event.broadcastMsg ⟨"cloud_costs", Payload.cloudCosts s2.cloud_costs⟩],
   "Cloud costs updated successfully")

/-- PUT /update-service-usage (lines 133-138): rebinds the service_usage
global to the payload's dict, then broadcasts {type: "service_usage", data:
service_usage}, then returns the success message. -/
def update_service_usage (s : AppState) (updated_usage : ServiceUsage) :
    AppState × List Event × String :=
  let s2 := { s with service_usage := updated_usage }
  (s2,
   [Event.storeReplace "service_usage" (Payload.serviceUsage s2.service_usage),
    Event.broadcastMsg ⟨"service_usage", Payload.serviceUsage s2.service_usage⟩],
   "Service usage updated successfully")

/-! Helper lemmas (shared; not tied to any single claim). -/

/-- One broadcast pass delivers to the longest failure-free prefix of the
channel list and raises exactly when some channel's send fails. -/
theorem broadcastRun_spec (fails : WebSocket → Bool) (l : List WebSocket) :
    broadcastRun fails l = (l.takeWhile (fun c => !fails c), l.any fails) := by
  induction l with
  | nil => rfl
  | cons c cs ih =>
    cases hc : fails c with
    | true => simp [broadcastRun, hc]
    | false => simp [broadcastRun, hc, ih]

/-- When no send fails, a broadcast pass delivers to every channel in order
and raises nothing. -/
theorem broadcastRun_no_failure (l : List WebSocket) :
    broadcastRun (fun _ => false) l = (l, false) := by
  induction l with
  | nil => rfl
  | cons c cs ih => simp [broadcastRun, ih]

/-! Claim theorems. -/

/-- C1 counterexample: it is false that broadcast delivers to every registered
channel whose own send succeeds and never propagates an error. With registry
[0, 1] and the send to channel 0 failing, channel 1 receives nothing and the
exception escapes to the caller. -/
theorem broadcast_failure_cex :
    ¬ (∀ (fails : WebSocket → Bool) (m : ConnectionManager) (msg : Message),
        (∀ c ∈ m.active_connections, fails c = false →
          c ∈ (m.broadcast msg fails).1) ∧
        (m.broadcast msg fails).2 = false) := by
  intro h
  have h2 := (h (fun c => decide (c = 0)) ⟨[0, 1]⟩
    ⟨"cloud_costs", Payload.cloudCosts []⟩).2
  simp [ConnectionManager.broadcast, broadcastRun] at h2

/-- C1 (amended): broadcast sends the message, in registration order, to
exactly the channels preceding the first failing send — in particular to every
currently-registered channel when no send fails — and a failing send aborts
delivery to the remaining channels, the exception propagating to the caller
of broadcast. -/
theorem broadcast_behavior (fails : WebSocket → Bool) (m : ConnectionManager)
    (msg : Message) :
    m.broadcast msg fails =
      (m.active_connections.takeWhile (fun c => !fails c),
       m.active_connections.any fails) :=
  broadcastRun_spec fails m.active_connections

/-- C2 counterexample: it is false that unregistering an absent channel is an
error-free no-op; on the empty registry, disconnect 0 raises ValueError. -/
theorem disconnect_absent_cex :
    ¬ (∀ (m : ConnectionManager) (ws : WebSocket),
        ws ∉ m.active_connections → m.disconnect ws = (m, none)) := by
  intro h
  have h0 := h ⟨[]⟩ 0 (by simp)
  simp [ConnectionManager.disconnect] at h0

/-- C2 (amended): unregistering a channel that is not in the active set raises
ValueError (list.remove on an absent element) rather than acting as a silent
no-op; the registry state itself is left unchanged by the failed call. -/
theorem disconnect_absent_raises (m : ConnectionManager) (ws : WebSocket)
    (h : ws ∉ m.active_connections) :
    m.disconnect ws = (m, some ()) := by
  simp [ConnectionManager.disconnect, h]

/-- C2 witness: the amended behaviour at the concrete input (empty registry,
channel 0). -/
theorem disconnect_absent_raises_witness :
    ConnectionManager.disconnect ⟨[]⟩ 0 = (⟨[]⟩, some ()) :=
  disconnect_absent_raises ⟨[]⟩ 0 (by simp)

/-- C3 counterexample: with start_date 2023-02-01 and end_date 2023-04-30
against the default sample data, the filtered read returns the empty list, not
the February/March/April records: the boundary year is compared, and every
stored month parses to year 1900. -/
theorem filtered_costs_2023_cex :
    get_filtered_costs initialState ⟨2023, 2, 1⟩ ⟨2023, 4, 30⟩ = some [] ∧
    some ([] : List CloudCost) ≠
      some [⟨"February", 59⟩, ⟨"March", 80⟩, ⟨"April", 81⟩] := by
  constructor
  · decide
  · decide

/-- C3 (amended): the filtered read returns exactly the stored records whose
month parses to a datetime(1900, m, 1) lying within [start, end] under full
date comparison — the year component of the boundaries is respected, not
ignored, so boundaries in year 1900 (e.g. 1900-02-01 to 1900-04-30) select
February through April of the sample data while 2023 boundaries select
nothing. -/
theorem filtered_costs_uses_year (start e : PyDate) (costs : List CloudCost)
    (h : ∀ c ∈ costs, (monthNumber c.month).isSome) :
    filterCosts start e costs =
      some (costs.filter (fun c =>
        PyDate.leb start (monthDate c.month) && PyDate.leb (monthDate c.month) e)) := by
  induction costs with
  | nil => rfl
  | cons c cs ih =>
    have hc := h c (List.mem_cons_self c cs)
    have hcs := fun x hx => h x (List.mem_cons_of_mem c hx)
    obtain ⟨m, hm⟩ := Option.isSome_iff_exists.mp hc
    rw [List.filter_cons]
    simp only [filterCosts, hm, ih hcs, monthDate, hm, Option.getD_some]
    by_cases hk : (PyDate.leb start ⟨1900, m, 1⟩ && PyDate.leb ⟨1900, m, 1⟩ e) = true
    · simp [hk]
    · simp [hk, Bool.of_not_eq_true hk]

/-- C3 witness: applying the amended theorem at year-1900 boundaries on the
default sample data yields the February, March, April records. -/
theorem filtered_costs_uses_year_witness :
    get_filtered_costs initialState ⟨1900, 2, 1⟩ ⟨1900, 4, 30⟩ =
      some [⟨"February", 59⟩, ⟨"March", 80⟩, ⟨"April", 81⟩] :=
  (filtered_costs_uses_year ⟨1900, 2, 1⟩ ⟨1900, 4, 30⟩ init_cloud_costs
    (by decide)).trans (by decide)

/-- C4: for every state and valid write payload W, reading the cloud costs
immediately after PUT /update-cloud-costs(W) returns exactly W (whole
collection round-trip replace). -/
theorem update_then_get_roundtrip (s : AppState) (W : List CloudCost) :
    get_cloud_costs (update_cloud_costs s W).1 = W := rfl

/-- C5: for each write endpoint, the observable effects in program order are
exactly the store replace followed by the broadcast, and the broadcast message
data is the value the store holds after the mutation. -/
theorem mutation_precedes_broadcast (s : AppState) (W : List CloudCost)
    (u : ServiceUsage) :
    (update_cloud_costs s W).2.1 =
      [Event.storeReplace "cloud_costs"
         (Payload.cloudCosts (update_cloud_costs s W).1.cloud_costs),
       Event.broadcastMsg
         ⟨"cloud_costs", Payload.cloudCosts (update_cloud_costs s W).1.cloud_costs⟩] ∧
    (update_service_usage s u).2.1 =
      [Event.storeReplace "service_usage"
         (Payload.serviceUsage (update_service_usage s u).1.service_usage),
       Event.broadcastMsg
         ⟨"service_usage", Payload.serviceUsage (update_service_usage s u).1.service_usage⟩] :=
  ⟨rfl, rfl⟩

/-- C6: the compute endpoint leaves the state untouched and returns
instanceCount * hoursPerDay * daysPerMonth * costPerHour; at
{instanceCount: 5, hoursPerDay: 24, daysPerMonth: 30, costPerHour: 0.1} the
result is 360 (exactly, also in binary floating point: 3600 * 0.1 rounds to
360.0). -/
theorem estimate_cost_formula (s : AppState) (p : CostEstimationParams) :
    (estimate_cost s p).1 = s ∧
    (estimate_cost s p).2 =
      (p.instanceCount : ℚ) * (p.hoursPerDay : ℚ) * (p.daysPerMonth : ℚ)
        * p.costPerHour ∧
    (estimate_cost initialState ⟨5, 24, 30, 1/10⟩).2 = 360 := by
  refine ⟨rfl, ?_, by norm_num [estimate_cost]⟩
  unfold estimate_cost
  push_cast
  ring

/-- C7: on the freshly started process, GET /cloud-costs returns exactly seven
records, for January through July in that order, with costs
[65, 59, 80, 81, 56, 55, 40]. -/
theorem initial_cloud_costs_value :
    (get_cloud_costs initialState).length = 7 ∧
    (get_cloud_costs initialState).map CloudCost.month =
      ["January", "February", "March", "April", "May", "June", "July"] ∧
    (get_cloud_costs initialState).map CloudCost.cost =
      [65, 59, 80, 81, 56, 55, 40] :=
  ⟨rfl, rfl, rfl⟩

set_option linter.unusedVariables false in
/-- C8: a ServiceUsage payload whose labels and data lists have unequal
lengths is not rejected: PUT /update-service-usage stores it verbatim,
broadcasts it, and returns the success message — no length check exists
anywhere in the system. -/
theorem unequal_length_usage_accepted (s : AppState) (u : ServiceUsage)
    (h : u.labels.length ≠ u.data.length) :
    (update_service_usage s u).1.service_usage = u ∧
    (update_service_usage s u).2.1 =
      [Event.storeReplace "service_usage" (Payload.serviceUsage u),
       Event.broadcastMsg ⟨"service_usage", Payload.serviceUsage u⟩] ∧
    (update_service_usage s u).2.2 = "Service usage updated successfully" :=
  ⟨rfl, rfl, rfl⟩

/-- C8 witness: the concrete unequal-length payload (one label, no data) is
stored verbatim. -/
theorem unequal_length_usage_accepted_witness :
    (["Compute"] : List String).length ≠ ([] : List ℚ).length ∧
    (update_service_usage initialState ⟨["Compute"], []⟩).1.service_usage =
      ⟨["Compute"], []⟩ :=
  ⟨by decide, (unequal_length_usage_accepted initialState ⟨["Compute"], []⟩
    (by decide)).1⟩

/-- C9: each write endpoint mutates only its own dataset:
PUT /update-cloud-costs leaves service_usage, daily_costs, resources and the
listener registry unchanged, and PUT /update-service-usage leaves cloud_costs,
daily_costs, resources and the listener registry unchanged. -/
theorem write_endpoints_frame (s : AppState) (W : List CloudCost)
    (u : ServiceUsage) :
    ((update_cloud_costs s W).1.service_usage = s.service_usage ∧
     (update_cloud_costs s W).1.daily_costs = s.daily_costs ∧
     (update_cloud_costs s W).1.resources = s.resources ∧
     (update_cloud_costs s W).1.manager = s.manager) ∧
    ((update_service_usage s u).1.cloud_costs = s.cloud_costs ∧
     (update_service_usage s u).1.daily_costs = s.daily_costs ∧
     (update_service_usage s u).1.resources = s.resources ∧
     (update_service_usage s u).1.manager = s.manager) :=
  ⟨⟨rfl, rfl, rfl, rfl⟩, ⟨rfl, rfl, rfl, rfl⟩⟩

/-- C10: registering a channel twice without an intervening unregister leaves
two entries for it in the active list, a failure-free broadcast then sends the
message to that channel twice, and one unregister raises nothing and removes
only one of the two entries. -/
theorem duplicate_registration (m : ConnectionManager) (ws : WebSocket)
    (msg : Message) (h : ws ∉ m.active_connections) :
    ((m.connect ws).connect ws).active_connections.count ws = 2 ∧
    (((m.connect ws).connect ws).broadcast msg (fun _ => false)).1.count ws = 2 ∧
    (((m.connect ws).connect ws).disconnect ws).2 = none ∧
    (((m.connect ws).connect ws).disconnect ws).1.active_connections.count ws = 1 := by
  have hmem : ws ∈ ((m.connect ws).connect ws).active_connections := by
    simp [ConnectionManager.connect]
  have hcount : ((m.connect ws).connect ws).active_connections.count ws = 2 := by
    simp [ConnectionManager.connect, List.count_append,
      List.count_eq_zero.mpr h]
  refine ⟨hcount, ?_, ?_, ?_⟩
  · rw [ConnectionManager.broadcast, broadcastRun_no_failure]
    exact hcount
  · simp [ConnectionManager.disconnect, hmem]
  · simp only [ConnectionManager.disconnect, hmem, if_pos]
    rw [List.count_erase_self, hcount]

/-- C10 witness: the duplicate-registration behaviour at the concrete input
(empty registry, channel 0, the cloud_costs broadcast message). -/
theorem duplicate_registration_witness :
    (0 : WebSocket) ∉ (⟨[]⟩ : ConnectionManager).active_connections ∧
    (((⟨[]⟩ : ConnectionManager).connect 0).connect 0).active_connections.count 0 = 2 :=
  ⟨by simp, (duplicate_registration ⟨[]⟩ 0
    ⟨"cloud_costs", Payload.cloudCosts []⟩ (by simp)).1⟩

end CloudCostBackend
